import Mathlib

/-!
# Verification of the fuzzy watering engine (`src/fuzzy_logic.py`)

This file embeds the fuzzy-inference watering engine of the repository in
Lean 4 and proves/refutes the frozen claims about it.

The repository code (`FuzzyWateringSystem` in `src/fuzzy_logic.py`)
configures the linguistic variables (triangular membership functions with
literal vertices), the 8-rule rule base, and delegates the actual Mamdani
inference (fuzzification, min-AND firing strengths, clipping, max
aggregation, centroid defuzzification over the unit-step discretized
output universe `np.arange(0, 120001, 1)`) to the `skfuzzy` library, which
is not part of the repository.  The vertices, the rules, the decision
record construction and the status bands below are translated directly
from `src/fuzzy_logic.py`; the inference pipeline itself is modelled from
the spec (section 4.3, steps 1-6), which describes it as: firing strength
= min of antecedent membership degrees, implication = clip of the
consequent membership at the firing strength, aggregation = pointwise max,
defuzzification = `sum(value_i * membership_i) / sum(membership_i)` over the
discretized output domain, rounded to the nearest integer millisecond,
with an `InvalidInput` error when an input is outside its domain range or
the aggregate curve is identically zero.
-/

/-- Triangular membership function, vertices `a ≤ b ≤ c` (`skfuzzy.trimf`):
value `1` at `b`, linear ramp up on `(a, b)`, linear ramp down on `(b, c)`,
`0` elsewhere; degenerate vertices give right/left triangles or a
single-point spike, exactly as in the spec's glossary. -/
def trimf (a b c x : ℚ) : ℚ :=
  if x = b then 1
  else if a < x ∧ x < b then (x - a) / (b - a)
  else if b < x ∧ x < c then (c - x) / (c - b)
  else 0

/- Membership functions with the literal vertices of
`FuzzyWateringSystem._setup_membership_functions`. -/

/-- `self.soil['very_dry'] = fuzz.trimf(self.soil.universe, [0, 0, 30])` -/
def soil_very_dry (x : ℚ) : ℚ := trimf 0 0 30 x

/-- `self.soil['dry'] = fuzz.trimf(self.soil.universe, [20, 35, 50])` -/
def soil_dry (x : ℚ) : ℚ := trimf 20 35 50 x

/-- `self.soil['moist'] = fuzz.trimf(self.soil.universe, [40, 55, 70])` -/
def soil_moist (x : ℚ) : ℚ := trimf 40 55 70 x

/-- `self.soil['wet'] = fuzz.trimf(self.soil.universe, [60, 100, 100])` -/
def soil_wet (x : ℚ) : ℚ := trimf 60 100 100 x

/-- `self.air['low'] = fuzz.trimf(self.air.universe, [0, 0, 40])` -/
def air_low (x : ℚ) : ℚ := trimf 0 0 40 x

/-- `self.air['medium'] = fuzz.trimf(self.air.universe, [30, 50, 70])` -/
def air_medium (x : ℚ) : ℚ := trimf 30 50 70 x

/-- `self.air['high'] = fuzz.trimf(self.air.universe, [60, 100, 100])` -/
def air_high (x : ℚ) : ℚ := trimf 60 100 100 x

/-- `self.temp['cool'] = fuzz.trimf(self.temp.universe, [0, 0, 20])` -/
def temp_cool (x : ℚ) : ℚ := trimf 0 0 20 x

/-- `self.temp['warm'] = fuzz.trimf(self.temp.universe, [15, 25, 30])` -/
def temp_warm (x : ℚ) : ℚ := trimf 15 25 30 x

/-- `self.temp['hot'] = fuzz.trimf(self.temp.universe, [25, 40, 40])` -/
def temp_hot (x : ℚ) : ℚ := trimf 25 40 40 x

/-- `self.watering['no_water'] = fuzz.trimf(..., [0, 0, 0])` -/
def watering_no_water (y : ℚ) : ℚ := trimf 0 0 0 y

/-- `self.watering['very_short'] = fuzz.trimf(..., [0, 15000, 30000])` -/
def watering_very_short (y : ℚ) : ℚ := trimf 0 15000 30000 y

/-- `self.watering['short'] = fuzz.trimf(..., [20000, 40000, 60000])` -/
def watering_short (y : ℚ) : ℚ := trimf 20000 40000 60000 y

/-- `self.watering['medium'] = fuzz.trimf(..., [50000, 70000, 90000])` -/
def watering_medium (y : ℚ) : ℚ := trimf 50000 70000 90000 y

/-- `self.watering['long'] = fuzz.trimf(..., [80000, 120000, 120000])` -/
def watering_long (y : ℚ) : ℚ := trimf 80000 120000 120000 y

/-- The three crisp sensor inputs of `calculate_watering(soil, air, temp)`. -/
structure Inputs where
  soil : ℚ
  air : ℚ
  temp : ℚ
deriving DecidableEq

/-- A rule: antecedent firing-strength function (min-conjunction of
membership degrees) paired with the consequent output membership
function. -/
abbrev RuleBase := List ((Inputs → ℚ) × (ℚ → ℚ))

/-- The fixed 8-rule rule base of `FuzzyWateringSystem._setup_rules`,
in source order; `&` between antecedent terms is min (logical AND). -/
def rules : RuleBase :=
  [(fun i => soil_wet i.soil, watering_no_water),
   (fun i => soil_very_dry i.soil, watering_long),
   (fun i => min (soil_dry i.soil) (temp_hot i.temp), watering_long),
   (fun i => min (soil_dry i.soil) (air_high i.air), watering_medium),
   (fun i => min (soil_moist i.soil) (temp_warm i.temp), watering_short),
   (fun i => temp_cool i.temp, watering_very_short),
   (fun i => min (air_low i.air) (temp_hot i.temp), watering_medium),
   (fun i => min (air_high i.air) (temp_warm i.temp), watering_short)]

/-- Modelled from the spec: aggregate output membership at output point
`y` (spec 4.3 steps 2-4, the part of the Mamdani pipeline living in the
`skfuzzy` library, absent from the repository): each rule clips its
consequent at its firing strength (`min`), and the clipped outputs are
combined pointwise by `max`. -/
def aggregate (rb : RuleBase) (i : Inputs) (y : ℚ) : ℚ :=
  (rb.map (fun r => min (r.1 i) (r.2 y))).foldr max 0

/-- Modelled from the spec: denominator of the centroid,
`sum(membership_i)` over the unit-step discretized output domain
`0, 1, ..., 120000` (`np.arange(0, 120001, 1)` in the source). -/
def sumArea (rb : RuleBase) (i : Inputs) : ℚ :=
  ∑ y ∈ Finset.range 120001, aggregate rb i (y : ℚ)

/-- Modelled from the spec: numerator of the centroid,
`sum(value_i * membership_i)` over the discretized output domain. -/
def sumMoment (rb : RuleBase) (i : Inputs) : ℚ :=
  ∑ y ∈ Finset.range 120001, (y : ℚ) * aggregate rb i (y : ℚ)

/-- Modelled from the spec: centroid defuzzification (spec 4.3 step 5). -/
def centroid (rb : RuleBase) (i : Inputs) : ℚ := sumMoment rb i / sumArea rb i

/-- The declared domain ranges of the three input variables
(`np.arange(0, 101, 1)` for soil and air, `np.arange(0, 41, 1)` for
temperature). -/
def inRange (i : Inputs) : Prop :=
  0 ≤ i.soil ∧ i.soil ≤ 100 ∧ 0 ≤ i.air ∧ i.air ≤ 100 ∧ 0 ≤ i.temp ∧ i.temp ≤ 40

instance (i : Inputs) : Decidable (inRange i) := by unfold inRange; infer_instance

/-- The decision record returned by `calculate_watering`
(`{'duration_ms': ..., 'duration_seconds': ..., 'status': ...}`). -/
structure Decision where
  duration_ms : ℤ
  duration_seconds : ℤ
  status : String
deriving DecidableEq

/-- `FuzzyWateringSystem._get_status`, translated clause by clause. -/
def get_status (time_ms : ℤ) : String :=
  if time_ms = 0 then "No watering needed (soil is wet)"
  else if time_ms ≤ 15000 then "Very short watering (cooling)"
  else if time_ms ≤ 40000 then "Short watering"
  else if time_ms ≤ 70000 then "Medium watering"
  else "Long watering (very dry soil)"

/-- The decision-record construction of `calculate_watering` (source lines
69-73): `duration_ms // 1000` is Python floor division, hence `Int.fdiv`.
This is the spec's Decision Formatter (spec 4.4). -/
def formatDecision (duration_ms : ℤ) : Decision :=
  { duration_ms := duration_ms
    duration_seconds := Int.fdiv duration_ms 1000
    status := get_status duration_ms }

/-- Modelled from the spec: the full computation of `calculate_watering`
on a concrete input triple, over a given rule base.  The inference itself
lives in `skfuzzy` (not in the repository); per spec 4.3 the operation
fails with the single generic error (the string returned by the bare
`except:` branch of the source) when an input is outside its domain range
or the aggregate curve is identically zero, and otherwise rounds the
centroid to the nearest integer millisecond and formats it. -/
def calcDecision (rb : RuleBase) (i : Inputs) : Except String Decision :=
  if ¬ inRange i ∨ sumArea rb i = 0 then .error "Invalid input range"
  else .ok (formatDecision (round (centroid rb i)))

/-- The stored crisp inputs of the shared `ControlSystemSimulation`
object (`self.simulator.input[...]`), `none` before first assignment. -/
structure SimState where
  soil : Option ℚ
  air : Option ℚ
  temp : Option ℚ
deriving DecidableEq

/-- The state of a `FuzzyWateringSystem` object: the rule-base
configuration built by `setup_fuzzy_system` and the mutable simulator
input state shared across calls. -/
structure SystemState where
  rules : RuleBase
  sim : SimState

/-- `FuzzyWateringSystem.setup_fuzzy_system`: builds the fixed
configuration once; simulator inputs start unset. -/
def setup_fuzzy_system : SystemState :=
  { rules := rules, sim := { soil := none, air := none, temp := none } }

/-- Modelled from the spec: `simulator.compute()` reads the currently
stored inputs; with any input unset the library computation fails and the
source's bare `except:` returns the same generic error. -/
def computeFromSim (rb : RuleBase) (s : SimState) : Except String Decision :=
  match s.soil, s.air, s.temp with
  | some so, some ai, some te => calcDecision rb { soil := so, air := ai, temp := te }
  | _, _, _ => .error "Invalid input range"

/-- The individual atomic actions `calculate_watering` performs on the
shared simulator: the three input assignments (source lines 62-64) and
`compute` (line 67). -/
inductive SimOp where
  | setSoil (v : ℚ)
  | setAir (v : ℚ)
  | setTemp (v : ℚ)
  | compute

/-- Effect of one atomic action on the shared state; `compute` is the
only action producing an output. -/
def applyOp (st : SystemState) : SimOp → SystemState × Option (Except String Decision)
  | .setSoil v => ({ st with sim := { st.sim with soil := some v } }, none)
  | .setAir v => ({ st with sim := { st.sim with air := some v } }, none)
  | .setTemp v => ({ st with sim := { st.sim with temp := some v } }, none)
  | .compute => (st, some (computeFromSim st.rules st.sim))

/-- Run a sequence of atomic actions (an interleaving of calls),
collecting the outputs of the `compute` actions in order. -/
def runOps (st : SystemState) : List SimOp → SystemState × List (Except String Decision)
  | [] => (st, [])
  | op :: ops =>
    let p := applyOp st op
    let q := runOps p.1 ops
    (q.1, p.2.toList ++ q.2)

/-- The atomic actions of one `calculate_watering(s, a, t)` call, in
source order. -/
def callOps (s a t : ℚ) : List SimOp :=
  [.setSoil s, .setAir a, .setTemp t, .compute]

/-- `FuzzyWateringSystem.calculate_watering` as the source has it: three
assignments to the shared simulator followed by `compute`, returning the
new object state and the call's result. -/
def calculate_watering_st (st : SystemState) (s a t : ℚ) :
    SystemState × Except String Decision :=
  let st1 := (applyOp st (.setSoil s)).1
  let st2 := (applyOp st1 (.setAir a)).1
  let st3 := (applyOp st2 (.setTemp t)).1
  (st3, computeFromSim st3.rules st3.sim)

/-- `calculate_watering` on a fresh system, as a pure function of the
input triple (the isolated-call behavior the claims quantify over). -/
def calculate_watering (i : Inputs) : Except String Decision :=
  calcDecision rules i

/-! ## Basic properties of the membership functions and the aggregate -/

theorem trimf_nonneg {a b c : ℚ} (x : ℚ) :
    0 ≤ trimf a b c x := by
  unfold trimf
  split_ifs with h1 h2 h3
  · norm_num
  · exact div_nonneg (by linarith [h2.1]) (by linarith [h2.1, h2.2])
  · exact div_nonneg (by linarith [h3.2]) (by linarith [h3.1, h3.2])
  · exact le_refl 0

theorem trimf_le_one {a b c : ℚ} (x : ℚ) : trimf a b c x ≤ 1 := by
  unfold trimf
  split_ifs with h1 h2 h3
  · exact le_refl 1
  · rw [div_le_one (by linarith [h2.1, h2.2])]; linarith [h2.2]
  · rw [div_le_one (by linarith [h3.1, h3.2])]; linarith [h3.1]
  · norm_num

theorem trimf_support {a b c x : ℚ} (hab : a ≤ b) (hbc : b ≤ c)
    (h : trimf a b c x ≠ 0) : a ≤ x ∧ x ≤ c := by
  unfold trimf at h
  split_ifs at h with h1 h2 h3
  · subst h1; exact ⟨hab, hbc⟩
  · exact ⟨le_of_lt h2.1, by linarith [h2.2]⟩
  · exact ⟨by linarith [h3.1], le_of_lt h3.2⟩
  · exact absurd rfl h

theorem foldr_max_nonneg (l : List ℚ) : 0 ≤ l.foldr max 0 := by
  induction l with
  | nil => exact le_refl 0
  | cons x l ih => exact le_trans ih (by simp [le_max_right])

theorem foldr_max_le {B : ℚ} (l : List ℚ) (hB : 0 ≤ B) (h : ∀ z ∈ l, z ≤ B) :
    l.foldr max 0 ≤ B := by
  induction l with
  | nil => exact hB
  | cons x l ih =>
    simp only [List.foldr_cons]
    exact max_le (h x (by simp)) (ih (fun z hz => h z (by simp [hz])))

theorem le_foldr_max {z : ℚ} (l : List ℚ) (hz : z ∈ l) : z ≤ l.foldr max 0 := by
  induction l with
  | nil => simp at hz
  | cons x l ih =>
    simp only [List.foldr_cons]
    rcases List.mem_cons.mp hz with h | h
    · subst h; exact le_max_left _ _
    · exact le_trans (ih h) (le_max_right _ _)

theorem aggregate_nonneg (rb : RuleBase) (i : Inputs) (y : ℚ) :
    0 ≤ aggregate rb i y :=
  foldr_max_nonneg _

theorem sumArea_nonneg (rb : RuleBase) (i : Inputs) : 0 ≤ sumArea rb i :=
  Finset.sum_nonneg (fun y _ => aggregate_nonneg rb i (y : ℚ))

theorem sumMoment_nonneg (rb : RuleBase) (i : Inputs) : 0 ≤ sumMoment rb i :=
  Finset.sum_nonneg (fun y _ =>
    mul_nonneg (by positivity) (aggregate_nonneg rb i (y : ℚ)))

theorem sumMoment_le (rb : RuleBase) (i : Inputs) :
    sumMoment rb i ≤ 120000 * sumArea rb i := by
  rw [sumArea, Finset.mul_sum, sumMoment]
  apply Finset.sum_le_sum
  intro y hy
  have hy' : y ≤ 120000 := by
    have := Finset.mem_range.mp hy; omega
  have hcast : (y : ℚ) ≤ 120000 := by exact_mod_cast hy'
  exact mul_le_mul_of_nonneg_right hcast (aggregate_nonneg rb i (y : ℚ))

theorem centroid_nonneg (rb : RuleBase) (i : Inputs) : 0 ≤ centroid rb i :=
  div_nonneg (sumMoment_nonneg rb i) (sumArea_nonneg rb i)

theorem centroid_le (rb : RuleBase) (i : Inputs) (h : sumArea rb i ≠ 0) :
    centroid rb i ≤ 120000 := by
  have hA : 0 < sumArea rb i := lt_of_le_of_ne (sumArea_nonneg rb i) (Ne.symm h)
  rw [centroid, div_le_iff₀ hA]
  exact sumMoment_le rb i

theorem centroid_le_of_support (rb : RuleBase) (i : Inputs) {hi : ℚ}
    (hA : sumArea rb i ≠ 0)
    (h : ∀ y : ℕ, y ∈ Finset.range 120001 → aggregate rb i (y : ℚ) ≠ 0 → (y : ℚ) ≤ hi) :
    centroid rb i ≤ hi := by
  have hApos : 0 < sumArea rb i := lt_of_le_of_ne (sumArea_nonneg rb i) (Ne.symm hA)
  rw [centroid, div_le_iff₀ hApos, sumMoment, sumArea, Finset.mul_sum]
  apply Finset.sum_le_sum
  intro y hy
  by_cases hz : aggregate rb i (y : ℚ) = 0
  · rw [hz, mul_zero, mul_zero]
  · exact mul_le_mul_of_nonneg_right (h y hy hz) (aggregate_nonneg rb i (y : ℚ))

theorem centroid_ge_of_support (rb : RuleBase) (i : Inputs) {lo : ℚ}
    (hA : sumArea rb i ≠ 0)
    (h : ∀ y : ℕ, y ∈ Finset.range 120001 → aggregate rb i (y : ℚ) ≠ 0 → lo ≤ (y : ℚ)) :
    lo ≤ centroid rb i := by
  have hApos : 0 < sumArea rb i := lt_of_le_of_ne (sumArea_nonneg rb i) (Ne.symm hA)
  rw [centroid, le_div_iff₀ hApos, sumMoment, sumArea, Finset.mul_sum]
  apply Finset.sum_le_sum
  intro y hy
  by_cases hz : aggregate rb i (y : ℚ) = 0
  · rw [hz, mul_zero, mul_zero]
  · exact mul_le_mul_of_nonneg_right (h y hy hz) (aggregate_nonneg rb i (y : ℚ))

theorem round_le_round {x y : ℚ} (h : x ≤ y) : round x ≤ round y := by
  rw [round_eq, round_eq]
  exact Int.floor_le_floor (by linarith)

theorem calcDecision_ok {rb : RuleBase} {i : Inputs}
    (h1 : inRange i) (h2 : sumArea rb i ≠ 0) :
    calcDecision rb i = .ok (formatDecision (round (centroid rb i))) := by
  rw [calcDecision, if_neg]
  push_neg
  exact ⟨h1, h2⟩

theorem calcDecision_error_of_zero_area {rb : RuleBase} {i : Inputs}
    (h : sumArea rb i = 0) : calcDecision rb i = .error "Invalid input range" := by
  rw [calcDecision, if_pos (Or.inr h)]

theorem calcDecision_error_of_out_of_range {rb : RuleBase} {i : Inputs}
    (h : ¬ inRange i) : calcDecision rb i = .error "Invalid input range" := by
  rw [calcDecision, if_pos (Or.inl h)]

/-! ## Decision formatter and status labelling (claims C2, C10) -/

/-- C2: for every integer `duration_ms ≥ 0` the formatter yields
`duration_seconds = duration_ms / 1000` (truncating integer division,
which for nonnegative input coincides with the source's floor division),
and the status label is chosen by the boundary-inclusive bands of
`_get_status`; in particular 15000 is "Very short", 15001 is "Short" and
0 is "No watering needed". -/
theorem claim_C2 (d : ℤ) (hd : 0 ≤ d) :
    (formatDecision d).duration_seconds = d / 1000 ∧
    (d = 0 → (formatDecision d).status = "No watering needed (soil is wet)") ∧
    (0 < d → d ≤ 15000 → (formatDecision d).status = "Very short watering (cooling)") ∧
    (15000 < d → d ≤ 40000 → (formatDecision d).status = "Short watering") ∧
    (40000 < d → d ≤ 70000 → (formatDecision d).status = "Medium watering") ∧
    (70000 < d → (formatDecision d).status = "Long watering (very dry soil)") ∧
    (formatDecision 15000).status = "Very short watering (cooling)" ∧
    (formatDecision 15001).status = "Short watering" ∧
    (formatDecision 0).status = "No watering needed (soil is wet)" := by
  refine ⟨?_, ?_, ?_, ?_, ?_, ?_, ?_, ?_, ?_⟩
  · exact Int.fdiv_eq_ediv d (by norm_num)
  · intro h1
    unfold formatDecision get_status
    rw [if_pos h1]
  · intro h1 h2
    unfold formatDecision get_status
    rw [if_neg (by omega), if_pos h2]
  · intro h1 h2
    unfold formatDecision get_status
    rw [if_neg (by omega), if_neg (by omega), if_pos h2]
  · intro h1 h2
    unfold formatDecision get_status
    rw [if_neg (by omega), if_neg (by omega), if_neg (by omega), if_pos h2]
  · intro h1
    unfold formatDecision get_status
    rw [if_neg (by omega), if_neg (by omega), if_neg (by omega), if_neg (by omega)]
  · unfold formatDecision get_status
    rw [if_neg (by omega), if_pos (by omega)]
  · unfold formatDecision get_status
    rw [if_neg (by omega), if_neg (by omega), if_pos (by omega)]
  · unfold formatDecision get_status
    rw [if_pos rfl]

/-- Witness for C2 at the concrete input `duration_ms = 7`. -/
theorem claim_C2_witness :
    (0 : ℤ) ≤ 7 ∧
    ((formatDecision 7).duration_seconds = 7 / 1000 ∧
    ((7 : ℤ) = 0 → (formatDecision 7).status = "No watering needed (soil is wet)") ∧
    ((0 : ℤ) < 7 → (7 : ℤ) ≤ 15000 → (formatDecision 7).status = "Very short watering (cooling)") ∧
    ((15000 : ℤ) < 7 → (7 : ℤ) ≤ 40000 → (formatDecision 7).status = "Short watering") ∧
    ((40000 : ℤ) < 7 → (7 : ℤ) ≤ 70000 → (formatDecision 7).status = "Medium watering") ∧
    ((70000 : ℤ) < 7 → (formatDecision 7).status = "Long watering (very dry soil)") ∧
    (formatDecision 15000).status = "Very short watering (cooling)" ∧
    (formatDecision 15001).status = "Short watering" ∧
    (formatDecision 0).status = "No watering needed (soil is wet)") :=
  ⟨by decide, claim_C2 7 (by decide)⟩

/-- C10: `_get_status` is total over ℤ, always returns one of the five
fixed labels, and maps every negative input to the same label as the
`(0, 15000]` band, "Very short watering (cooling)". -/
theorem claim_C10 (t : ℤ) :
    (get_status t = "No watering needed (soil is wet)" ∨
     get_status t = "Very short watering (cooling)" ∨
     get_status t = "Short watering" ∨
     get_status t = "Medium watering" ∨
     get_status t = "Long watering (very dry soil)") ∧
    (t < 0 → get_status t = "Very short watering (cooling)") := by
  constructor
  · unfold get_status
    split_ifs <;> simp
  · intro ht
    unfold get_status
    rw [if_neg (by omega), if_pos (by omega)]

/-- Witness for C10 at the concrete negative input `-3`. -/
theorem claim_C10_witness :
    (-3 : ℤ) < 0 ∧ get_status (-3) = "Very short watering (cooling)" :=
  ⟨by decide, (claim_C10 (-3)).2 (by decide)⟩

/-! ## Error handling (claim C5) -/

/-- C5: out-of-range inputs fail with the single generic error, and
every call returns either that error or a fully-formed Decision; no
partial record and no other outcome is possible. -/
theorem claim_C5 :
    (∀ i : Inputs, ¬ inRange i → calculate_watering i = .error "Invalid input range") ∧
    (∀ i : Inputs, calculate_watering i = .error "Invalid input range" ∨
      ∃ d : Decision, calculate_watering i = .ok d) := by
  constructor
  · intro i h
    exact calcDecision_error_of_out_of_range h
  · intro i
    by_cases h1 : inRange i
    · by_cases h2 : sumArea rules i = 0
      · exact Or.inl (calcDecision_error_of_zero_area h2)
      · exact Or.inr ⟨_, calcDecision_ok h1 h2⟩
    · exact Or.inl (calcDecision_error_of_out_of_range h1)

/-- Witness for C5 at the concrete out-of-range input `soil = -5`. -/
theorem claim_C5_witness :
    ¬ inRange ⟨-5, 50, 20⟩ ∧
    calculate_watering ⟨-5, 50, 20⟩ = .error "Invalid input range" :=
  ⟨by norm_num [inRange], claim_C5.1 ⟨-5, 50, 20⟩ (by norm_num [inRange])⟩

/-! ## Purity and the frame property (claims C7, C8) -/

/-- C7: calling `calculate_watering` twice in succession with identical
inputs yields identical results: the second call, started from the
object state the first call left behind, returns exactly the first
call's result (the three stored inputs are fully overwritten before
`compute`, so no hidden state drifts between calls). -/
theorem claim_C7 (st : SystemState) (s a t : ℚ) :
    (calculate_watering_st (calculate_watering_st st s a t).1 s a t).2 =
      (calculate_watering_st st s a t).2 := rfl

/-- C8: a call to `calculate_watering` leaves the fixed configuration
(the rule base built once by `setup_fuzzy_system`, which carries the
domains and their triangular membership functions) unchanged: the
configuration after the call equals the configuration before it. -/
theorem claim_C8 (st : SystemState) (s a t : ℚ) :
    (calculate_watering_st st s a t).1.rules = st.rules := rfl

/-! ## Claim C1: totality over the declared input box -/

/-- Unfolding of the aggregate over the literal 8-rule base. -/
theorem aggregate_rules_eq (i : Inputs) (y : ℚ) :
    aggregate rules i y =
      max (min (soil_wet i.soil) (watering_no_water y))
      (max (min (soil_very_dry i.soil) (watering_long y))
      (max (min (min (soil_dry i.soil) (temp_hot i.temp)) (watering_long y))
      (max (min (min (soil_dry i.soil) (air_high i.air)) (watering_medium y))
      (max (min (min (soil_moist i.soil) (temp_warm i.temp)) (watering_short y))
      (max (min (temp_cool i.temp) (watering_very_short y))
      (max (min (min (air_low i.air) (temp_hot i.temp)) (watering_medium y))
      (max (min (min (air_high i.air) (temp_warm i.temp)) (watering_short y)) 0))))))) := rfl

/-- At soil 55, air 50, temperature 35 every rule has firing strength 0:
air "medium" appears in no rule, soil is exactly at the "moist" peak but
the only moist rule also needs "warm", and the temperature is past the
"warm" region.  The aggregate curve is identically zero. -/
theorem aggregate_55_50_35 (y : ℚ) : aggregate rules ⟨55, 50, 35⟩ y = 0 := by
  rw [aggregate_rules_eq]
  dsimp only
  have h1 : soil_wet (55 : ℚ) = 0 := by norm_num [soil_wet, trimf]
  have h2 : soil_very_dry (55 : ℚ) = 0 := by norm_num [soil_very_dry, trimf]
  have h3 : soil_dry (55 : ℚ) = 0 := by norm_num [soil_dry, trimf]
  have h4 : soil_moist (55 : ℚ) = 1 := by norm_num [soil_moist, trimf]
  have h5 : air_low (50 : ℚ) = 0 := by norm_num [air_low, trimf]
  have h6 : air_high (50 : ℚ) = 0 := by norm_num [air_high, trimf]
  have h7 : temp_cool (35 : ℚ) = 0 := by norm_num [temp_cool, trimf]
  have h8 : temp_warm (35 : ℚ) = 0 := by norm_num [temp_warm, trimf]
  have h9 : temp_hot (35 : ℚ) = 2/3 := by norm_num [temp_hot, trimf]
  rw [h1, h2, h3, h4, h5, h6, h7, h8, h9]
  have k1 : min (0 : ℚ) (watering_no_water y) = 0 := min_eq_left (trimf_nonneg y)
  have k2 : min (0 : ℚ) (watering_long y) = 0 := min_eq_left (trimf_nonneg y)
  have k3 : min (0 : ℚ) (watering_medium y) = 0 := min_eq_left (trimf_nonneg y)
  have k4 : min (0 : ℚ) (watering_short y) = 0 := min_eq_left (trimf_nonneg y)
  have k5 : min (0 : ℚ) (watering_very_short y) = 0 := min_eq_left (trimf_nonneg y)
  rw [show min (0 : ℚ) (2/3) = 0 by norm_num, show min (1 : ℚ) 0 = 0 by norm_num]
  rw [k1, k2, k3, k4, k5]
  norm_num

/-- The aggregate area at (55, 50, 35) is zero: no rule fires. -/
theorem sumArea_55_50_35 : sumArea rules ⟨55, 50, 35⟩ = 0 := by
  rw [sumArea]
  exact Finset.sum_eq_zero (fun y _ => aggregate_55_50_35 (y : ℚ))

/-- Counterexample to C1: the in-range input (55, 50, 35) produces the
generic error, not a Decision — no rule of the 8-rule base fires there,
so defuzzification is undefined. -/
theorem claim_C1_counterexample :
    inRange ⟨55, 50, 35⟩ ∧
    calculate_watering ⟨55, 50, 35⟩ = .error "Invalid input range" :=
  ⟨by norm_num [inRange], calcDecision_error_of_zero_area sumArea_55_50_35⟩

/-- C1 as amended: for every input triple in the declared box, the call
returns either the generic invalid-input error (possible: the rule base
leaves in-range gaps where no rule fires) or a Decision whose
`duration_ms` is an integer with `0 ≤ duration_ms ≤ 120000`. -/
theorem claim_C1_amended (s a t : ℚ)
    (hs0 : 0 ≤ s) (hs1 : s ≤ 100) (ha0 : 0 ≤ a) (ha1 : a ≤ 100)
    (ht0 : 0 ≤ t) (ht1 : t ≤ 40) :
    calculate_watering ⟨s, a, t⟩ = .error "Invalid input range" ∨
    ∃ d : Decision, calculate_watering ⟨s, a, t⟩ = .ok d ∧
      0 ≤ d.duration_ms ∧ d.duration_ms ≤ 120000 := by
  by_cases h2 : sumArea rules ⟨s, a, t⟩ = 0
  · exact Or.inl (calcDecision_error_of_zero_area h2)
  · right
    have hin : inRange ⟨s, a, t⟩ := ⟨hs0, hs1, ha0, ha1, ht0, ht1⟩
    refine ⟨_, calcDecision_ok hin h2, ?_, ?_⟩
    · show (0 : ℤ) ≤ round (centroid rules ⟨s, a, t⟩)
      have h := round_le_round (centroid_nonneg rules ⟨s, a, t⟩)
      rwa [round_zero] at h
    · show round (centroid rules ⟨s, a, t⟩) ≤ 120000
      have h := round_le_round (centroid_le rules ⟨s, a, t⟩ h2)
      rwa [show round ((120000 : ℚ)) = 120000 from round_ofNat 120000] at h

/-- Witness for the amended C1 at the concrete in-range input
(50, 50, 20). -/
theorem claim_C1_amended_witness :
    ((0 : ℚ) ≤ 50 ∧ (50 : ℚ) ≤ 100 ∧ (0 : ℚ) ≤ 20 ∧ (20 : ℚ) ≤ 40) ∧
    (calculate_watering ⟨50, 50, 20⟩ = .error "Invalid input range" ∨
     ∃ d : Decision, calculate_watering ⟨50, 50, 20⟩ = .ok d ∧
       0 ≤ d.duration_ms ∧ d.duration_ms ≤ 120000) :=
  ⟨⟨by norm_num, by norm_num, by norm_num, by norm_num⟩,
   claim_C1_amended 50 50 20 (by norm_num) (by norm_num) (by norm_num)
     (by norm_num) (by norm_num) (by norm_num)⟩

/-! ## Claim C4: the fully-dry boundary input (0, 100, 40) -/

/-- At soil 0, air 100, temperature 40 the only rule with nonzero firing
strength is `soil very_dry -> long`, at strength 1; the aggregate curve
is the `long` triangle itself. -/
theorem aggregate_0_100_40 (y : ℚ) :
    aggregate rules ⟨0, 100, 40⟩ y = watering_long y := by
  rw [aggregate_rules_eq]
  dsimp only
  have h1 : soil_wet (0 : ℚ) = 0 := by norm_num [soil_wet, trimf]
  have h2 : soil_very_dry (0 : ℚ) = 1 := by norm_num [soil_very_dry, trimf]
  have h3 : soil_dry (0 : ℚ) = 0 := by norm_num [soil_dry, trimf]
  have h4 : soil_moist (0 : ℚ) = 0 := by norm_num [soil_moist, trimf]
  have h5 : air_low (100 : ℚ) = 0 := by norm_num [air_low, trimf]
  have h6 : air_high (100 : ℚ) = 1 := by norm_num [air_high, trimf]
  have h7 : temp_cool (40 : ℚ) = 0 := by norm_num [temp_cool, trimf]
  have h8 : temp_warm (40 : ℚ) = 0 := by norm_num [temp_warm, trimf]
  have h9 : temp_hot (40 : ℚ) = 1 := by norm_num [temp_hot, trimf]
  rw [h1, h2, h3, h4, h5, h6, h7, h8, h9]
  have k1 : min (0 : ℚ) (watering_no_water y) = 0 := min_eq_left (trimf_nonneg y)
  have k2 : min (1 : ℚ) (watering_long y) = watering_long y :=
    min_eq_right (trimf_le_one y)
  have k3 : min (0 : ℚ) (watering_long y) = 0 := min_eq_left (trimf_nonneg y)
  have k4 : min (0 : ℚ) (watering_medium y) = 0 := min_eq_left (trimf_nonneg y)
  have k5 : min (0 : ℚ) (watering_short y) = 0 := min_eq_left (trimf_nonneg y)
  have k6 : min (0 : ℚ) (watering_very_short y) = 0 := min_eq_left (trimf_nonneg y)
  have m1 : max (watering_long y) 0 = watering_long y := max_eq_left (trimf_nonneg y)
  have m2 : max (0 : ℚ) (watering_long y) = watering_long y :=
    max_eq_right (trimf_nonneg y)
  simp only [show min (0 : ℚ) 1 = 0 by norm_num, show min (1 : ℚ) 0 = 0 by norm_num,
    min_self, k1, k2, k3, k4, k5, k6, max_self, m1, m2]

/-- The aggregate area at (0, 100, 40) is positive (the curve is 1 at
the output point 120000). -/
theorem sumArea_0_100_40_pos : 0 < sumArea rules ⟨0, 100, 40⟩ := by
  have h1 : aggregate rules ⟨0, 100, 40⟩ ((120000 : ℕ) : ℚ) = 1 := by
    rw [show ((120000 : ℕ) : ℚ) = 120000 by norm_num, aggregate_0_100_40]
    norm_num [watering_long, trimf]
  rw [sumArea, show (120001 : ℕ) = 120000 + 1 by norm_num, Finset.sum_range_succ, h1]
  have h2 : 0 ≤ ∑ y ∈ Finset.range 120000, aggregate rules ⟨0, 100, 40⟩ (y : ℚ) :=
    Finset.sum_nonneg (fun y _ => aggregate_nonneg rules ⟨0, 100, 40⟩ (y : ℚ))
  linarith

/-- The aggregate at (0, 100, 40) is supported at or above output 80000. -/
theorem support_0_100_40 (y : ℕ) (hy : y ∈ Finset.range 120001)
    (hne : aggregate rules ⟨0, 100, 40⟩ (y : ℚ) ≠ 0) : (80000 : ℚ) ≤ (y : ℚ) := by
  rw [aggregate_0_100_40] at hne
  exact (trimf_support (by norm_num) (by norm_num) hne).1

/-- The decision at (0, 100, 40): a Decision in the upper band, with the
long-watering label (the centroid of the clipped `long` region lies at or
above 80000). -/
theorem calc_long_at_0_100_40 :
    ∃ d : Decision, calculate_watering ⟨0, 100, 40⟩ = .ok d ∧
      70000 < d.duration_ms ∧ d.status = "Long watering (very dry soil)" := by
  have hin : inRange ⟨0, 100, 40⟩ := by norm_num [inRange]
  have hA : sumArea rules ⟨0, 100, 40⟩ ≠ 0 := sumArea_0_100_40_pos.ne'
  have hc : (80000 : ℚ) ≤ centroid rules ⟨0, 100, 40⟩ :=
    centroid_ge_of_support rules ⟨0, 100, 40⟩ hA support_0_100_40
  have hd : (80000 : ℤ) ≤ round (centroid rules ⟨0, 100, 40⟩) := by
    have h := round_le_round hc
    rwa [show round ((80000 : ℚ)) = 80000 from round_ofNat 80000] at h
  refine ⟨_, calcDecision_ok hin hA, ?_, ?_⟩
  · show (70000 : ℤ) < round (centroid rules ⟨0, 100, 40⟩)
    omega
  · show get_status (round (centroid rules ⟨0, 100, 40⟩)) =
      "Long watering (very dry soil)"
    unfold get_status
    rw [if_neg (by omega), if_neg (by omega), if_neg (by omega), if_neg (by omega)]

/-- C4: at soil 0, air 100, temperature 40 the engine returns a Decision
with `duration_ms > 70000` and the long-watering status: soil is fully
"very_dry", firing the `long` rule at strength 1, and the aggregate is
supported entirely at or above output 80000. -/
theorem claim_C4 :
    ∃ d : Decision, calculate_watering ⟨0, 100, 40⟩ = .ok d ∧
      70000 < d.duration_ms ∧ d.status = "Long watering (very dry soil)" :=
  calc_long_at_0_100_40

/-! ## Claim C6: wetter soil never demands more water (mid-range air and
temperature) -/

theorem trimf_eq_zero {a b c x : ℚ} (hab : a ≤ b) (hbc : b ≤ c)
    (h : x < a ∨ c < x) : trimf a b c x = 0 := by
  by_contra hne
  rcases trimf_support hab hbc hne with ⟨h1, h2⟩
  rcases h with h | h <;> linarith

/-- Generic positivity of the aggregate area from one positive point. -/
theorem sumArea_pos_at (rb : RuleBase) (i : Inputs) (y0 : ℕ)
    (h1 : y0 < 120001) (h2 : 0 < aggregate rb i (y0 : ℚ)) :
    0 < sumArea rb i := by
  rw [sumArea, ← Finset.sum_range_add_sum_Ico _ (le_of_lt h1),
    Finset.sum_eq_sum_Ico_succ_bot h1]
  have h3 : 0 ≤ ∑ y ∈ Finset.range y0, aggregate rb i (y : ℚ) :=
    Finset.sum_nonneg (fun y _ => aggregate_nonneg rb i (y : ℚ))
  have h4 : 0 ≤ ∑ y ∈ Finset.Ico (y0 + 1) 120001, aggregate rb i (y : ℚ) :=
    Finset.sum_nonneg (fun y _ => aggregate_nonneg rb i (y : ℚ))
  linarith

theorem soil_wet_pos {s : ℚ} (hs : 60 < s) (hs1 : s ≤ 100) : 0 < soil_wet s := by
  unfold soil_wet trimf
  split_ifs with h1 h2 h3
  · norm_num
  · apply div_pos <;> linarith
  · exfalso; linarith [h3.1, h3.2]
  · exfalso
    have h100 : 100 ≤ s := by
      by_contra hc
      push_neg at hc
      exact h2 ⟨hs, hc⟩
    exact h1 (le_antisymm hs1 h100)

theorem soil_very_dry_pos {s : ℚ} (hs0 : 0 ≤ s) (hs : s < 30) :
    0 < soil_very_dry s := by
  unfold soil_very_dry trimf
  split_ifs with h1 h2 h3
  · norm_num
  · exfalso; linarith [h2.2]
  · apply div_pos <;> linarith
  · exfalso
    have hpos : 0 < s := lt_of_le_of_ne hs0 (Ne.symm h1)
    exact h3 ⟨hpos, hs⟩

/-- At air 50 and temperature 20, for soil in the "wet" region, the only
possibly-firing rules are `wet -> no_water` and `moist & warm -> short`. -/
theorem aggregate_wet_side {s : ℚ} (hs : 60 < s) (y : ℚ) :
    aggregate rules ⟨s, 50, 20⟩ y =
      max (min (soil_wet s) (watering_no_water y))
          (min (min (soil_moist s) (1 / 2)) (watering_short y)) := by
  rw [aggregate_rules_eq]
  dsimp only
  have h5 : air_low (50 : ℚ) = 0 := by norm_num [air_low, trimf]
  have h6 : air_high (50 : ℚ) = 0 := by norm_num [air_high, trimf]
  have h7 : temp_cool (20 : ℚ) = 0 := by norm_num [temp_cool, trimf]
  have h8 : temp_warm (20 : ℚ) = 1 / 2 := by norm_num [temp_warm, trimf]
  have h9 : temp_hot (20 : ℚ) = 0 := by norm_num [temp_hot, trimf]
  have h2 : soil_very_dry s = 0 :=
    trimf_eq_zero (le_refl 0) (by norm_num) (Or.inr (by linarith))
  rw [h2, h5, h6, h7, h8, h9]
  have r3 : min (soil_dry s) (0 : ℚ) = 0 := min_eq_right (trimf_nonneg s)
  have k1 : min (0 : ℚ) (watering_long y) = 0 := min_eq_left (trimf_nonneg y)
  have k2 : min (0 : ℚ) (watering_medium y) = 0 := min_eq_left (trimf_nonneg y)
  have k3 : min (0 : ℚ) (watering_very_short y) = 0 := min_eq_left (trimf_nonneg y)
  have k4 : min (0 : ℚ) (watering_short y) = 0 := min_eq_left (trimf_nonneg y)
  have m5 : 0 ≤ min (min (soil_moist s) (1 / 2)) (watering_short y) :=
    le_min (le_min (trimf_nonneg s) (by norm_num)) (trimf_nonneg y)
  simp only [r3, min_self, show min (0 : ℚ) (1 / 2) = 0 by norm_num,
    k1, k2, k3, k4, max_self, max_eq_left m5, max_eq_right m5]

/-- At air 50 and temperature 20, for soil in the "very_dry" region, the
only firing rule is `very_dry -> long`. -/
theorem aggregate_dry_side {s : ℚ} (hs : s < 30) (y : ℚ) :
    aggregate rules ⟨s, 50, 20⟩ y = min (soil_very_dry s) (watering_long y) := by
  rw [aggregate_rules_eq]
  dsimp only
  have h5 : air_low (50 : ℚ) = 0 := by norm_num [air_low, trimf]
  have h6 : air_high (50 : ℚ) = 0 := by norm_num [air_high, trimf]
  have h7 : temp_cool (20 : ℚ) = 0 := by norm_num [temp_cool, trimf]
  have h8 : temp_warm (20 : ℚ) = 1 / 2 := by norm_num [temp_warm, trimf]
  have h9 : temp_hot (20 : ℚ) = 0 := by norm_num [temp_hot, trimf]
  have h1 : soil_wet s = 0 :=
    trimf_eq_zero (by norm_num) (le_refl 100) (Or.inl (by linarith))
  have h4 : soil_moist s = 0 :=
    trimf_eq_zero (by norm_num) (by norm_num) (Or.inl (by linarith))
  rw [h1, h4, h5, h6, h7, h8, h9]
  have r3 : min (soil_dry s) (0 : ℚ) = 0 := min_eq_right (trimf_nonneg s)
  have k1 : min (0 : ℚ) (watering_no_water y) = 0 := min_eq_left (trimf_nonneg y)
  have k2 : min (0 : ℚ) (watering_long y) = 0 := min_eq_left (trimf_nonneg y)
  have k3 : min (0 : ℚ) (watering_medium y) = 0 := min_eq_left (trimf_nonneg y)
  have k4 : min (0 : ℚ) (watering_very_short y) = 0 := min_eq_left (trimf_nonneg y)
  have k5 : min (0 : ℚ) (watering_short y) = 0 := min_eq_left (trimf_nonneg y)
  have m2 : 0 ≤ min (soil_very_dry s) (watering_long y) :=
    le_min (trimf_nonneg s) (trimf_nonneg y)
  simp only [r3, min_self, show min (0 : ℚ) (1 / 2) = 0 by norm_num,
    k1, k2, k3, k4, k5, max_self, max_eq_left m2, max_eq_right m2]

theorem wet_side_support {s : ℚ} (hs : 60 < s) (y : ℕ)
    (hy : y ∈ Finset.range 120001)
    (hne : aggregate rules ⟨s, 50, 20⟩ (y : ℚ) ≠ 0) : (y : ℚ) ≤ 60000 := by
  rw [aggregate_wet_side hs] at hne
  have hms : (0 : ℚ) ≤ min (soil_moist s) (1 / 2) :=
    le_min (trimf_nonneg s) (by norm_num)
  by_cases hnw : watering_no_water (y : ℚ) = 0
  · by_cases hsh : watering_short (y : ℚ) = 0
    · exfalso
      apply hne
      rw [hnw, hsh, min_eq_right (show (0 : ℚ) ≤ soil_wet s from trimf_nonneg s),
        min_eq_right hms, max_self]
    · exact (trimf_support (by norm_num) (by norm_num) hsh).2
  · have h00 := (trimf_support (le_refl (0 : ℚ)) (le_refl (0 : ℚ)) hnw).2
    linarith

theorem dry_side_support {s : ℚ} (hs : s < 30) (y : ℕ)
    (hy : y ∈ Finset.range 120001)
    (hne : aggregate rules ⟨s, 50, 20⟩ (y : ℚ) ≠ 0) : (80000 : ℚ) ≤ (y : ℚ) := by
  rw [aggregate_dry_side hs] at hne
  have hlong : watering_long (y : ℚ) ≠ 0 := by
    intro h0
    exact hne (by rw [h0]; exact min_eq_right (trimf_nonneg s))
  exact (trimf_support (by norm_num) (by norm_num) hlong).1

theorem wet_side_area_pos {s : ℚ} (hs : 60 < s) (hs1 : s ≤ 100) :
    0 < sumArea rules ⟨s, 50, 20⟩ := by
  apply sumArea_pos_at rules ⟨s, 50, 20⟩ 0 (by norm_num)
  rw [show ((0 : ℕ) : ℚ) = 0 by norm_num, aggregate_wet_side hs]
  have hnw : watering_no_water (0 : ℚ) = 1 := by norm_num [watering_no_water, trimf]
  rw [hnw]
  have : 0 < min (soil_wet s) 1 := lt_min (soil_wet_pos hs hs1) (by norm_num)
  exact lt_of_lt_of_le this (le_max_left _ _)

theorem dry_side_area_pos {s : ℚ} (hs0 : 0 ≤ s) (hs : s < 30) :
    0 < sumArea rules ⟨s, 50, 20⟩ := by
  apply sumArea_pos_at rules ⟨s, 50, 20⟩ 120000 (by norm_num)
  rw [show ((120000 : ℕ) : ℚ) = 120000 by norm_num, aggregate_dry_side hs]
  have hlg : watering_long (120000 : ℚ) = 1 := by norm_num [watering_long, trimf]
  rw [hlg]
  exact lt_min (soil_very_dry_pos hs0 hs) (by norm_num)

/-- C6: with air humidity and temperature fixed at their mid-range values
(50 and 20), a soil value in the "wet" region (membership > 0, i.e.
`60 < soil ≤ 100`) never yields a longer watering than a soil value in the
"very_dry" region (`0 ≤ soil < 30`): the wet-side aggregate is supported
at or below output 60000 while the dry-side aggregate is supported at or
above 80000. -/
theorem claim_C6 (sw sd : ℚ) (h1 : 60 < sw) (h2 : sw ≤ 100)
    (h3 : 0 ≤ sd) (h4 : sd < 30) :
    ∃ dw dd : Decision,
      calculate_watering ⟨sw, 50, 20⟩ = .ok dw ∧
      calculate_watering ⟨sd, 50, 20⟩ = .ok dd ∧
      dw.duration_ms ≤ dd.duration_ms := by
  have hinw : inRange ⟨sw, 50, 20⟩ := by
    refine ⟨by linarith, h2, by norm_num, by norm_num, by norm_num, by norm_num⟩
  have hind : inRange ⟨sd, 50, 20⟩ := by
    refine ⟨h3, by linarith, by norm_num, by norm_num, by norm_num, by norm_num⟩
  have hAw : sumArea rules ⟨sw, 50, 20⟩ ≠ 0 := (wet_side_area_pos h1 h2).ne'
  have hAd : sumArea rules ⟨sd, 50, 20⟩ ≠ 0 := (dry_side_area_pos h3 h4).ne'
  refine ⟨_, _, calcDecision_ok hinw hAw, calcDecision_ok hind hAd, ?_⟩
  show round (centroid rules ⟨sw, 50, 20⟩) ≤ round (centroid rules ⟨sd, 50, 20⟩)
  have hcw : centroid rules ⟨sw, 50, 20⟩ ≤ 60000 :=
    centroid_le_of_support rules ⟨sw, 50, 20⟩ hAw (wet_side_support h1)
  have hcd : (80000 : ℚ) ≤ centroid rules ⟨sd, 50, 20⟩ :=
    centroid_ge_of_support rules ⟨sd, 50, 20⟩ hAd (dry_side_support h4)
  have hw : round (centroid rules ⟨sw, 50, 20⟩) ≤ 60000 := by
    have h := round_le_round hcw
    rwa [show round ((60000 : ℚ)) = 60000 from round_ofNat 60000] at h
  have hd : (80000 : ℤ) ≤ round (centroid rules ⟨sd, 50, 20⟩) := by
    have h := round_le_round hcd
    rwa [show round ((80000 : ℚ)) = 80000 from round_ofNat 80000] at h
  omega

/-- Witness for C6 at the spec's example pair: wet soil 90 against
very dry soil 5. -/
theorem claim_C6_witness :
    ((60 : ℚ) < 90 ∧ (90 : ℚ) ≤ 100 ∧ (0 : ℚ) ≤ 5 ∧ (5 : ℚ) < 30) ∧
    (∃ dw dd : Decision,
      calculate_watering ⟨90, 50, 20⟩ = .ok dw ∧
      calculate_watering ⟨5, 50, 20⟩ = .ok dd ∧
      dw.duration_ms ≤ dd.duration_ms) :=
  ⟨⟨by norm_num, by norm_num, by norm_num, by norm_num⟩,
   claim_C6 90 5 (by norm_num) (by norm_num) (by norm_num) (by norm_num)⟩

/-! ## Claim C3: the wet boundary input (100, 0, 0), evaluated exactly -/

theorem sum_id_range (n : ℕ) :
    ∑ y ∈ Finset.range n, (y : ℚ) = (n : ℚ) * ((n : ℚ) - 1) / 2 := by
  induction n with
  | zero => simp
  | succ m ih =>
    rw [Finset.sum_range_succ, ih]
    push_cast
    ring

theorem sum_sq_range (n : ℕ) :
    ∑ y ∈ Finset.range n, (y : ℚ) ^ 2 =
      (n : ℚ) * ((n : ℚ) - 1) * (2 * (n : ℚ) - 1) / 6 := by
  induction n with
  | zero => simp
  | succ m ih =>
    rw [Finset.sum_range_succ, ih]
    push_cast
    ring

/-- At soil 100, air 0, temperature 0 two rules fire at strength 1:
`wet -> no_water` AND `cool -> very_short` (the spec overlooks the second
one).  The aggregate is the pointwise max of the `no_water` spike and the
full `very_short` triangle. -/
theorem aggregate_100_0_0 (y : ℚ) :
    aggregate rules ⟨100, 0, 0⟩ y =
      max (watering_no_water y) (watering_very_short y) := by
  rw [aggregate_rules_eq]
  dsimp only
  have h1 : soil_wet (100 : ℚ) = 1 := by norm_num [soil_wet, trimf]
  have h2 : soil_very_dry (100 : ℚ) = 0 := by norm_num [soil_very_dry, trimf]
  have h3 : soil_dry (100 : ℚ) = 0 := by norm_num [soil_dry, trimf]
  have h4 : soil_moist (100 : ℚ) = 0 := by norm_num [soil_moist, trimf]
  have h5 : air_low (0 : ℚ) = 1 := by norm_num [air_low, trimf]
  have h6 : air_high (0 : ℚ) = 0 := by norm_num [air_high, trimf]
  have h7 : temp_cool (0 : ℚ) = 1 := by norm_num [temp_cool, trimf]
  have h8 : temp_warm (0 : ℚ) = 0 := by norm_num [temp_warm, trimf]
  have h9 : temp_hot (0 : ℚ) = 0 := by norm_num [temp_hot, trimf]
  rw [h1, h2, h3, h4, h5, h6, h7, h8, h9]
  have knw : min (1 : ℚ) (watering_no_water y) = watering_no_water y :=
    min_eq_right (trimf_le_one y)
  have kvs : min (1 : ℚ) (watering_very_short y) = watering_very_short y :=
    min_eq_right (trimf_le_one y)
  have k1 : min (0 : ℚ) (watering_long y) = 0 := min_eq_left (trimf_nonneg y)
  have k2 : min (0 : ℚ) (watering_medium y) = 0 := min_eq_left (trimf_nonneg y)
  have k3 : min (0 : ℚ) (watering_short y) = 0 := min_eq_left (trimf_nonneg y)
  have hvs : 0 ≤ watering_very_short y := trimf_nonneg y
  simp only [knw, kvs, k1, k2, k3, min_self,
    show min (1 : ℚ) 0 = 0 by norm_num, max_self,
    max_eq_left hvs, max_eq_right hvs]

theorem nw_zero_of_pos (y : ℕ) (h : 1 ≤ y) : watering_no_water (y : ℚ) = 0 := by
  apply trimf_eq_zero (le_refl 0) (le_refl 0)
  right
  exact_mod_cast Nat.lt_of_lt_of_le Nat.zero_lt_one h

theorem vs_ramp_up (y : ℕ) (h1 : 1 ≤ y) (h2 : y < 15000) :
    watering_very_short (y : ℚ) = (y : ℚ) / 15000 := by
  have hx0 : (0 : ℚ) < (y : ℚ) := by exact_mod_cast Nat.lt_of_lt_of_le Nat.zero_lt_one h1
  have hx15 : ((y : ℚ)) < 15000 := by exact_mod_cast h2
  unfold watering_very_short trimf
  rw [if_neg (by linarith), if_pos ⟨hx0, hx15⟩]
  norm_num

theorem vs_at_15000 : watering_very_short ((15000 : ℕ) : ℚ) = 1 := by
  norm_num [watering_very_short, trimf]

theorem vs_ramp_down (y : ℕ) (h1 : 15000 < y) (h2 : y < 30000) :
    watering_very_short (y : ℚ) = (30000 - (y : ℚ)) / 15000 := by
  have hx0 : (15000 : ℚ) < (y : ℚ) := by exact_mod_cast h1
  have hx30 : ((y : ℚ)) < 30000 := by exact_mod_cast h2
  unfold watering_very_short trimf
  rw [if_neg (by linarith), if_neg (by rintro ⟨-, h4⟩; linarith),
    if_pos ⟨hx0, hx30⟩]
  norm_num

theorem vs_high (y : ℕ) (h : 30000 ≤ y) : watering_very_short (y : ℚ) = 0 := by
  have hx : (30000 : ℚ) ≤ (y : ℚ) := by exact_mod_cast h
  unfold watering_very_short trimf
  rw [if_neg (by linarith), if_neg (by rintro ⟨-, h4⟩; linarith),
    if_neg (by rintro ⟨-, h4⟩; linarith)]

theorem agg100_at_0 : aggregate rules ⟨100, 0, 0⟩ ((0 : ℕ) : ℚ) = 1 := by
  rw [aggregate_100_0_0]
  norm_num [watering_no_water, watering_very_short, trimf]

theorem agg100_up (y : ℕ) (h1 : 1 ≤ y) (h2 : y < 15000) :
    aggregate rules ⟨100, 0, 0⟩ (y : ℚ) = (y : ℚ) / 15000 := by
  rw [aggregate_100_0_0, nw_zero_of_pos y h1, vs_ramp_up y h1 h2]
  exact max_eq_right (by positivity)

theorem agg100_at_15000 : aggregate rules ⟨100, 0, 0⟩ ((15000 : ℕ) : ℚ) = 1 := by
  rw [aggregate_100_0_0, nw_zero_of_pos 15000 (by norm_num), vs_at_15000]
  norm_num

theorem agg100_down (y : ℕ) (h1 : 15000 < y) (h2 : y < 30000) :
    aggregate rules ⟨100, 0, 0⟩ (y : ℚ) = (30000 - (y : ℚ)) / 15000 := by
  rw [aggregate_100_0_0, nw_zero_of_pos y (by omega), vs_ramp_down y h1 h2]
  apply max_eq_right
  have hx30 : ((y : ℚ)) ≤ 30000 := by exact_mod_cast le_of_lt h2
  exact div_nonneg (by linarith) (by norm_num)

theorem agg100_high (y : ℕ) (h : 30000 ≤ y) :
    aggregate rules ⟨100, 0, 0⟩ (y : ℚ) = 0 := by
  rw [aggregate_100_0_0, nw_zero_of_pos y (by omega), vs_high y h, max_self]

/-- Exact aggregate area at (100, 0, 0): the spike contributes 1 at
output 0 and the `very_short` triangle contributes 15000 in total. -/
theorem sumArea_100_0_0 : sumArea rules ⟨100, 0, 0⟩ = 15001 := by
  rw [sumArea,
    ← Finset.sum_range_add_sum_Ico (fun y : ℕ => aggregate rules ⟨100, 0, 0⟩ (y : ℚ))
      (show (30000 : ℕ) ≤ 120001 by norm_num),
    ← Finset.sum_range_add_sum_Ico (fun y : ℕ => aggregate rules ⟨100, 0, 0⟩ (y : ℚ))
      (show (15001 : ℕ) ≤ 30000 by norm_num),
    ← Finset.sum_range_add_sum_Ico (fun y : ℕ => aggregate rules ⟨100, 0, 0⟩ (y : ℚ))
      (show (15000 : ℕ) ≤ 15001 by norm_num),
    ← Finset.sum_range_add_sum_Ico (fun y : ℕ => aggregate rules ⟨100, 0, 0⟩ (y : ℚ))
      (show (1 : ℕ) ≤ 15000 by norm_num),
    Finset.sum_range_one]
  have hhigh : ∑ y ∈ Finset.Ico (30000 : ℕ) 120001,
      aggregate rules ⟨100, 0, 0⟩ (y : ℚ) = 0 :=
    Finset.sum_eq_zero (fun y hy => agg100_high y (Finset.mem_Ico.mp hy).1)
  have hmid : ∑ y ∈ Finset.Ico (15000 : ℕ) 15001,
      aggregate rules ⟨100, 0, 0⟩ (y : ℚ) = 1 := by
    rw [Finset.sum_eq_sum_Ico_succ_bot (show (15000 : ℕ) < 15001 by norm_num),
      agg100_at_15000, show (15000 + 1 : ℕ) = 15001 by norm_num,
      Finset.Ico_self, Finset.sum_empty, add_zero]
  have hup : ∑ y ∈ Finset.Ico (1 : ℕ) 15000, aggregate rules ⟨100, 0, 0⟩ (y : ℚ)
      = ∑ y ∈ Finset.Ico (1 : ℕ) 15000, (y : ℚ) / 15000 :=
    Finset.sum_congr rfl (fun y hy =>
      agg100_up y (Finset.mem_Ico.mp hy).1 (Finset.mem_Ico.mp hy).2)
  have hdn : ∑ y ∈ Finset.Ico (15001 : ℕ) 30000, aggregate rules ⟨100, 0, 0⟩ (y : ℚ)
      = ∑ y ∈ Finset.Ico (15001 : ℕ) 30000, (30000 - (y : ℚ)) / 15000 :=
    Finset.sum_congr rfl (fun y hy =>
      agg100_down y (by have := (Finset.mem_Ico.mp hy).1; omega)
        (Finset.mem_Ico.mp hy).2)
  have e1 : ∑ y ∈ Finset.Ico (1 : ℕ) 15000, (y : ℚ) / 15000 = 14999 / 2 := by
    rw [← Finset.sum_div, Finset.sum_Ico_eq_sub _ (show (1 : ℕ) ≤ 15000 by norm_num),
      sum_id_range, sum_id_range]
    norm_num
  have e2 : ∑ y ∈ Finset.Ico (15001 : ℕ) 30000, (30000 - (y : ℚ)) / 15000
      = 14999 / 2 := by
    rw [← Finset.sum_div, Finset.sum_sub_distrib, Finset.sum_const, Nat.card_Ico,
      Finset.sum_Ico_eq_sub _ (show (15001 : ℕ) ≤ 30000 by norm_num),
      sum_id_range, sum_id_range]
    push_cast
    norm_num
  rw [hhigh, hmid, hup, hdn, e1, e2, agg100_at_0]
  norm_num

/-- Exact aggregate moment at (100, 0, 0). -/
theorem sumMoment_100_0_0 : sumMoment rules ⟨100, 0, 0⟩ = 225000000 := by
  rw [sumMoment,
    ← Finset.sum_range_add_sum_Ico
      (fun y : ℕ => (y : ℚ) * aggregate rules ⟨100, 0, 0⟩ (y : ℚ))
      (show (30000 : ℕ) ≤ 120001 by norm_num),
    ← Finset.sum_range_add_sum_Ico
      (fun y : ℕ => (y : ℚ) * aggregate rules ⟨100, 0, 0⟩ (y : ℚ))
      (show (15001 : ℕ) ≤ 30000 by norm_num),
    ← Finset.sum_range_add_sum_Ico
      (fun y : ℕ => (y : ℚ) * aggregate rules ⟨100, 0, 0⟩ (y : ℚ))
      (show (15000 : ℕ) ≤ 15001 by norm_num),
    ← Finset.sum_range_add_sum_Ico
      (fun y : ℕ => (y : ℚ) * aggregate rules ⟨100, 0, 0⟩ (y : ℚ))
      (show (1 : ℕ) ≤ 15000 by norm_num),
    Finset.sum_range_one]
  have hhigh : ∑ y ∈ Finset.Ico (30000 : ℕ) 120001,
      (y : ℚ) * aggregate rules ⟨100, 0, 0⟩ (y : ℚ) = 0 :=
    Finset.sum_eq_zero (fun y hy => by
      rw [agg100_high y (Finset.mem_Ico.mp hy).1, mul_zero])
  have hmid : ∑ y ∈ Finset.Ico (15000 : ℕ) 15001,
      (y : ℚ) * aggregate rules ⟨100, 0, 0⟩ (y : ℚ) = 15000 := by
    rw [Finset.sum_eq_sum_Ico_succ_bot (show (15000 : ℕ) < 15001 by norm_num),
      agg100_at_15000, show (15000 + 1 : ℕ) = 15001 by norm_num,
      Finset.Ico_self, Finset.sum_empty, add_zero]
    norm_num
  have hup : ∑ y ∈ Finset.Ico (1 : ℕ) 15000,
      (y : ℚ) * aggregate rules ⟨100, 0, 0⟩ (y : ℚ)
      = ∑ y ∈ Finset.Ico (1 : ℕ) 15000, (y : ℚ) * ((y : ℚ) / 15000) :=
    Finset.sum_congr rfl (fun y hy => by
      rw [agg100_up y (Finset.mem_Ico.mp hy).1 (Finset.mem_Ico.mp hy).2])
  have hdn : ∑ y ∈ Finset.Ico (15001 : ℕ) 30000,
      (y : ℚ) * aggregate rules ⟨100, 0, 0⟩ (y : ℚ)
      = ∑ y ∈ Finset.Ico (15001 : ℕ) 30000, (y : ℚ) * ((30000 - (y : ℚ)) / 15000) :=
    Finset.sum_congr rfl (fun y hy => by
      rw [agg100_down y (by have := (Finset.mem_Ico.mp hy).1; omega)
        (Finset.mem_Ico.mp hy).2])
  have e1 : ∑ y ∈ Finset.Ico (1 : ℕ) 15000, (y : ℚ) * ((y : ℚ) / 15000)
      = 1124887502500 / 15000 := by
    have h : ∀ y ∈ Finset.Ico (1 : ℕ) 15000,
        (y : ℚ) * ((y : ℚ) / 15000) = (y : ℚ) ^ 2 / 15000 := fun y _ => by ring
    rw [Finset.sum_congr rfl h, ← Finset.sum_div,
      Finset.sum_Ico_eq_sub _ (show (1 : ℕ) ≤ 15000 by norm_num),
      sum_sq_range, sum_sq_range]
    norm_num
  have e2 : ∑ y ∈ Finset.Ico (15001 : ℕ) 30000, (y : ℚ) * ((30000 - (y : ℚ)) / 15000)
      = 2249887497500 / 15000 := by
    have h : ∀ y ∈ Finset.Ico (15001 : ℕ) 30000,
        (y : ℚ) * ((30000 - (y : ℚ)) / 15000)
          = (30000 * (y : ℚ) - (y : ℚ) ^ 2) / 15000 := fun y _ => by ring
    rw [Finset.sum_congr rfl h, ← Finset.sum_div, Finset.sum_sub_distrib,
      ← Finset.mul_sum,
      Finset.sum_Ico_eq_sub _ (show (15001 : ℕ) ≤ 30000 by norm_num),
      Finset.sum_Ico_eq_sub (fun y : ℕ => (y : ℚ) ^ 2)
        (show (15001 : ℕ) ≤ 30000 by norm_num),
      sum_id_range, sum_id_range, sum_sq_range, sum_sq_range]
    norm_num
  rw [hhigh, hmid, hup, hdn, e1, e2, agg100_at_0]
  norm_num

/-- The exact decision at (100, 0, 0): centroid 225000000/15001,
rounded to 14999 ms. -/
theorem calc_at_100_0_0 :
    calculate_watering ⟨100, 0, 0⟩ =
      .ok { duration_ms := 14999, duration_seconds := 14,
            status := "Very short watering (cooling)" } := by
  have hin : inRange ⟨100, 0, 0⟩ := by norm_num [inRange]
  have hA : sumArea rules ⟨100, 0, 0⟩ ≠ 0 := by rw [sumArea_100_0_0]; norm_num
  have hc : centroid rules ⟨100, 0, 0⟩ = 225000000 / 15001 := by
    rw [centroid, sumMoment_100_0_0, sumArea_100_0_0]
  have hr : round ((225000000 : ℚ) / 15001) = 14999 := by
    rw [round_eq, Int.floor_eq_iff]
    constructor
    · push_cast
      norm_num
    · push_cast
      norm_num
  show calcDecision rules ⟨100, 0, 0⟩ = _
  rw [calcDecision_ok hin hA, hc, hr]
  rfl

/-- Counterexample to C3: at soil 100, air 0, temperature 0 the engine
returns duration 14999 ms with the very-short status, not duration 0 with
the no-watering status: temperature 0 fires `cool -> very_short` at
strength 1 in addition to `wet -> no_water`, and the one-point `no_water`
spike contributes almost nothing to the centroid of the aggregate. -/
theorem claim_C3_counterexample :
    calculate_watering ⟨100, 0, 0⟩ =
      .ok { duration_ms := 14999, duration_seconds := 14,
            status := "Very short watering (cooling)" } ∧
    (14999 : ℤ) ≠ 0 ∧
    "Very short watering (cooling)" ≠ "No watering needed (soil is wet)" :=
  ⟨calc_at_100_0_0, by decide, by decide⟩

/-- C3 as amended: at soil 100, air 0, temperature 0 the engine returns
the Decision with `duration_ms = 14999` and status
"Very short watering (cooling)" (the `cool` rule also fires at strength 1,
so the centroid lands just below the `very_short` peak instead of 0). -/
theorem claim_C3_amended :
    calculate_watering ⟨100, 0, 0⟩ =
      .ok { duration_ms := 14999, duration_seconds := 14,
            status := "Very short watering (cooling)" } :=
  calc_at_100_0_0

/-! ## Claim C9: the shared Evaluation Context under concurrency -/

/-- Counterexample to C9: the code shares one mutable simulator across
calls (`self.simulator`, created once in `setup_fuzzy_system`), so in the
interleaving where call B stores its inputs (100, 0, 0) after call A
stored (0, 100, 40) but before A's `compute` step, A's compute reads B's
inputs and A receives the decision for (100, 0, 0) — different from the
result of the same call made in isolation, which is the long-watering
decision for (0, 100, 40). -/
theorem claim_C9_counterexample :
    (runOps setup_fuzzy_system
      [.setSoil 0, .setAir 100, .setTemp 40,
       .setSoil 100, .setAir 0, .setTemp 0, .compute, .compute]).2.head? =
      some (calculate_watering ⟨100, 0, 0⟩) ∧
    calculate_watering ⟨100, 0, 0⟩ ≠ calculate_watering ⟨0, 100, 40⟩ := by
  constructor
  · rfl
  · rw [calc_at_100_0_0]
    obtain ⟨d, hd, hgt, _⟩ := calc_long_at_0_100_40
    rw [hd]
    intro h
    have h2 := Except.ok.inj h
    rw [← h2] at hgt
    norm_num at hgt

/-- C9 as amended: the Evaluation Context is not fresh per call — it is
the one shared simulator — but any fully serialized call on the system
(whatever state previous complete calls left the shared context in)
returns exactly the isolated-call result, and the serialized execution of
two calls returns both isolated results in order.  Only genuinely
interleaved executions can differ (see the counterexample). -/
theorem claim_C9_amended (st : SystemState) (s a t s2 a2 t2 : ℚ)
    (h : st.rules = rules) :
    (calculate_watering_st st s a t).2 = calculate_watering ⟨s, a, t⟩ ∧
    (runOps st (callOps s a t ++ callOps s2 a2 t2)).2 =
      [calculate_watering ⟨s, a, t⟩, calculate_watering ⟨s2, a2, t2⟩] := by
  obtain ⟨rb, sim⟩ := st
  dsimp only at h
  subst h
  exact ⟨rfl, rfl⟩

/-- Witness for the amended C9 on the freshly set-up system with the two
concrete calls (100, 0, 0) and (0, 100, 40). -/
theorem claim_C9_amended_witness :
    setup_fuzzy_system.rules = rules ∧
    ((calculate_watering_st setup_fuzzy_system 100 0 0).2 =
        calculate_watering ⟨100, 0, 0⟩ ∧
      (runOps setup_fuzzy_system (callOps 100 0 0 ++ callOps 0 100 40)).2 =
        [calculate_watering ⟨100, 0, 0⟩, calculate_watering ⟨0, 100, 40⟩]) :=
  ⟨rfl, claim_C9_amended setup_fuzzy_system 100 0 0 0 100 40 rfl⟩
